import Mathlib

/-!
Shallow embedding of `src/scripts/apm_test_reference.py`: a Modal service
demonstrating Datadog APM tracing with structlog structured logging.

The effectful Python code is modelled as explicit event traces: every
tracer/span/logger operation performed by `TestService.process` (and the
functions it configures) is recorded as an `Event` in the order the source
executes it.  The two `random.random()` draws are inputs `r1 r2 : ℚ`
(compared against the source literals 0.05 and 0.10), float durations are
rationals, and fault injection (an exception raised inside a child stage,
as the spec's testable properties require) is an `Option Exc` input per
stage.  `with tracer.trace(...)` blocks close their span on every exit,
and the `try/finally` around the body always appends a `flush`, mirroring
ddtrace context-manager semantics and the source's `finally` block.
-/

namespace ApmRef

/-- JSON-like values appearing in result dicts and log event dicts. -/
inductive Value where
  | str (s : String)
  | nat (n : Nat)
  | obj (fields : List (String × Value))
deriving Repr

/-- A Python dict with string keys, in insertion order. -/
abbrev Dict := List (String × Value)

/-- `d[k]` lookup: first binding of `k`. -/
def lookupKey (d : Dict) (k : String) : Option Value :=
  match d with
  | [] => none
  | (k', v) :: rest => if k' = k then some v else lookupKey rest k

/-- `d[k] = v` assignment: replace the existing binding in place, else append. -/
def setKey (d : Dict) (k : String) (v : Value) : Dict :=
  match d with
  | [] => [(k, v)]
  | (k', v') :: rest => if k' = k then (k, v) :: rest else (k', v') :: setKey rest k v

/-- The service name `app_name = "modal-apm-test"`. -/
def app_name : String := "modal-apm-test"

/-- An exception raised inside a stage (identified by its message). -/
structure Exc where
  msg : String
deriving Repr, DecidableEq

/-- One observable effect performed by the instrumented code, in program order. -/
inductive Event where
  | spanOpen (name service spanType : String)
  | spanClose (name : String)
  | setTag (span key value : String)
  | setTagB (span key : String) (value : Bool)
  | setMetric (span key : String) (value : ℚ)
  | logInfo (event : String)
  | sleep (seconds : ℚ)
  | flush
deriving Repr

/-- An event trace: the effects of one execution, oldest first. -/
abbrev Trace := List Event

/-- A computation's effects together with its outcome (normal or raised). -/
abbrev Eff (α : Type) := Trace × Except Exc α

/-- Sequencing: run `a`; if it raised, skip `b` and propagate the exception. -/
def seqT {α : Type} (a : Eff Unit) (b : Eff α) : Eff α :=
  match a with
  | (tr, Except.ok _) => (tr ++ b.1, b.2)
  | (tr, Except.error e) => (tr, Except.error e)

/-- `with tracer.trace(name, service, span_type)` around `body`: the span is
opened before the body and closed after it on every exit path (ddtrace's
context manager closes the span even when the body raises). -/
def withSpan {α : Type} (name service spanType : String) (body : Eff α) : Eff α :=
  (Event.spanOpen name service spanType :: body.1 ++ [Event.spanClose name], body.2)

/-- Body of the `document.render_pages` child span (source lines 169-175).
An injected fault fires at the start of the stage body. -/
def renderBody (r1 : ℚ) (fault : Option Exc) : Eff Unit :=
  match fault with
  | some e => ([], Except.error e)
  | none =>
    let is_slow_render : Bool := decide (r1 < 5/100)
    let render_time : ℚ := if r1 < 5/100 then 1 else 2/10
    ([Event.setMetric "document.render_pages" "pages_count" 10,
      Event.setTagB "document.render_pages" "slow_render" is_slow_render,
      Event.sleep render_time,
      Event.logInfo "rendered_pages"], Except.ok ())

/-- Body of the `document.llm_extract` child span (source lines 178-185).
An injected fault fires at the start of the stage body. -/
def llmBody (r2 : ℚ) (fault : Option Exc) : Eff Unit :=
  match fault with
  | some e => ([], Except.error e)
  | none =>
    let is_slow_llm : Bool := decide (r2 < 10/100)
    let llm_time : ℚ := if r2 < 10/100 then 9/10 else 3/10
    ([Event.setTag "document.llm_extract" "model" "mineru-vl",
      Event.setMetric "document.llm_extract" "tokens_processed" 1500,
      Event.setTagB "document.llm_extract" "slow_llm" is_slow_llm,
      Event.sleep llm_time,
      Event.logInfo "extracted_content"], Except.ok ())

/-- Container-lifetime service state: `init` stores `self.strategies`. -/
structure TestServiceState where
  strategies : List String
deriving Repr

/-- `TestService.init` (source lines 142-148): one `modal.init` span, two log
lines, and `self.strategies = ["mineru-vl", "dots-ocr"]`. -/
def TestService.init : TestServiceState × Trace :=
  (⟨["mineru-vl", "dots-ocr"]⟩,
   [Event.spanOpen "modal.init" app_name "serverless",
    Event.logInfo "service_initializing",
    Event.logInfo "service_initialized",
    Event.spanClose "modal.init"])

/-- `TestService.process` (source lines 150-201).  Inputs: the service state
`self`, the arguments `document_id` and `strategy`, the two random draws
`r1 r2`, and an optional injected fault per child stage.  Output: the event
trace and either the returned dict or the propagated exception. -/
def TestService.process (self : TestServiceState) (document_id : String)
    (strategy : String) (r1 r2 : ℚ)
    (faultRender faultLlm : Option Exc) : Eff Dict :=
  let rootTags : Eff Unit :=
    ([Event.setTag "document.process" "document_id" document_id,
      Event.setTag "document.process" "strategy" strategy,
      Event.setTag "document.process" "span.kind" "server",
      Event.logInfo "processing_document"], Except.ok ())
  let finalMetrics : Eff Unit :=
    ([Event.setMetric "document.process" "total_pages" 10,
      Event.logInfo "document_processed_successfully"], Except.ok ())
  let body : Eff Unit :=
    withSpan "document.process" app_name "serverless"
      (seqT rootTags
        (seqT (withSpan "document.render_pages" app_name "template" (renderBody r1 faultRender))
          (seqT (withSpan "document.llm_extract" app_name "llm" (llmBody r2 faultLlm))
            finalMetrics)))
  match body with
  | (tr, Except.ok _) =>
      (tr ++ [Event.flush],
       Except.ok [("document_id", Value.str document_id),
                  ("strategy", Value.str strategy),
                  ("status", Value.str "success"),
                  ("pages", Value.nat 10)])
  | (tr, Except.error e) => (tr ++ [Event.flush], Except.error e)

/-- Number of `tracer.flush()` calls in a trace. -/
def countFlush : Trace → Nat
  | [] => 0
  | Event.flush :: es => countFlush es + 1
  | _ :: es => countFlush es

/-- Just the span open/close events of a trace, in order. -/
def spanEvents : Trace → Trace
  | [] => []
  | Event.spanOpen n s t :: es => Event.spanOpen n s t :: spanEvents es
  | Event.spanClose n :: es => Event.spanClose n :: spanEvents es
  | _ :: es => spanEvents es

/-- The boolean span tags of a trace, as (key, value) pairs in order.  The
only boolean tags the source sets are `slow_render` and `slow_llm`. -/
def boolTags : Trace → List (String × Bool)
  | [] => []
  | Event.setTagB _ k b :: es => (k, b) :: boolTags es
  | _ :: es => boolTags es

/-- Total seconds slept (`asyncio.sleep`) in a trace. -/
def totalSleep : Trace → ℚ
  | [] => 0
  | Event.sleep t :: es => t + totalSleep es
  | _ :: es => totalSleep es

/-- The process environment: variable name to value, `none` when unset. -/
abbrev Env := String → Option String

/-- `os.getenv(key, default)`. -/
def getenv (env : Env) (key default_ : String) : String :=
  (env key).getD default_

/-- `add_modal_context` (source lines 81-90): sets `event_dict["modal"]` to
the five Modal runtime facts read from the environment. -/
def add_modal_context (env : Env) (event_dict : Dict) : Dict :=
  setKey event_dict "modal" (Value.obj
    [("is_remote", Value.str (getenv env "MODAL_IS_REMOTE" "0")),
     ("environment", Value.str (getenv env "MODAL_ENVIRONMENT" "unknown")),
     ("region", Value.str (getenv env "MODAL_REGION" "unknown")),
     ("task_id", Value.str (getenv env "MODAL_TASK_ID" "unknown")),
     ("image_id", Value.str (getenv env "MODAL_IMAGE_ID" "unknown"))])

/-- The identifiers of the currently active span, as seen by
`tracer.current_span()`. -/
structure SpanCtx where
  trace_id : Nat
  span_id : Nat
  service : String
deriving Repr

/-- `add_datadog_context` (source lines 92-101): when a span is active, sets
`event_dict["dd"]` to that span's stringified trace/span identifiers and
service; otherwise returns the record unchanged. -/
def add_datadog_context (current_span : Option SpanCtx) (event_dict : Dict) : Dict :=
  match current_span with
  | some s =>
      setKey event_dict "dd" (Value.obj
        [("trace_id", Value.str (toString s.trace_id)),
         ("span_id", Value.str (toString s.span_id)),
         ("service", Value.str s.service)])
  | none => event_dict

/-- The structlog enrichment processors, one constructor per entry of the
`processors=[...]` list passed to `structlog.configure`. -/
inductive Processor where
  | add_log_level
  | add_logger_name
  | timeStamperIso
  | stackInfoRenderer
  | add_modal_context
  | add_datadog_context
  | format_exc_info
  | jsonRenderer
deriving Repr, DecidableEq

/-- The processor pipeline exactly as configured at source lines 104-119,
in source order. -/
def configuredProcessors : List Processor :=
  [Processor.add_log_level,
   Processor.add_logger_name,
   Processor.timeStamperIso,
   Processor.stackInfoRenderer,
   Processor.add_modal_context,
   Processor.add_datadog_context,
   Processor.format_exc_info,
   Processor.jsonRenderer]

/-- Assigning key `k` makes a later lookup of `k` return the assigned value. -/
theorem lookupKey_setKey (d : Dict) (k : String) (v : Value) :
    lookupKey (setKey d k v) k = some v := by
  induction d with
  | nil => simp [setKey, lookupKey]
  | cons hd tl ih =>
      obtain ⟨k', v'⟩ := hd
      by_cases h : k' = k
      · simp [setKey, lookupKey, h]
      · simp [setKey, lookupKey, h, ih]

/-- C1: on normal completion, `process w s` returns the record whose work-id
key (named `document_id` in the code) maps to `w`, whose `strategy` key maps
to `s`, whose `status` key maps to `"success"` and whose `pages` key maps to
`10` — in particular `process "doc-1" "strategy-A"` returns
`{document_id: "doc-1", strategy: "strategy-A", status: "success", pages: 10}`. -/
theorem process_result_record (st : TestServiceState) (w s : String) (r1 r2 : ℚ) :
    ∃ d : Dict,
      (TestService.process st w s r1 r2 none none).2 = Except.ok d ∧
      d = [("document_id", Value.str w), ("strategy", Value.str s),
           ("status", Value.str "success"), ("pages", Value.nat 10)] ∧
      lookupKey d "document_id" = some (Value.str w) ∧
      lookupKey d "strategy" = some (Value.str s) ∧
      lookupKey d "status" = some (Value.str "success") ∧
      lookupKey d "pages" = some (Value.nat 10) := by
  refine ⟨_, rfl, rfl, ?_, ?_, ?_, ?_⟩ <;> simp [lookupKey]

/-- C2: every invocation of `process` calls `tracer.flush` exactly once,
whatever the random draws and whether either child stage raises. -/
theorem process_flush_once (st : TestServiceState) (w s : String) (r1 r2 : ℚ)
    (f1 f2 : Option Exc) :
    countFlush (TestService.process st w s r1 r2 f1 f2).1 = 1 := by
  cases f1 <;> cases f2 <;> rfl

/-- C3: a log record processed while a span is active gets a `dd` field
holding exactly that span's trace identifier and span identifier (and
service); with no active span the record gains no trace-context field. -/
theorem log_trace_correlation :
    (∀ (sp : SpanCtx) (d : Dict),
       lookupKey (add_datadog_context (some sp) d) "dd" =
         some (Value.obj
           [("trace_id", Value.str (toString sp.trace_id)),
            ("span_id", Value.str (toString sp.span_id)),
            ("service", Value.str sp.service)])) ∧
    (∀ d : Dict, lookupKey d "dd" = none →
       lookupKey (add_datadog_context none d) "dd" = none) := by
  constructor
  · intro sp d
    exact lookupKey_setKey d "dd" _
  · intro d h
    exact h

/-- C3 instantiated: a concrete record under a concrete active span carries
that span's identifiers, and a fresh record with no active span stays free of
trace-context fields. -/
theorem log_trace_correlation_witness :
    lookupKey (add_datadog_context (some ⟨7, 11, app_name⟩)
        [("event", Value.str "processing_document")]) "dd" =
      some (Value.obj
        [("trace_id", Value.str "7"), ("span_id", Value.str "11"),
         ("service", Value.str app_name)]) ∧
    lookupKey (add_datadog_context none
        [("event", Value.str "processing_document")]) "dd" = none :=
  ⟨log_trace_correlation.1 ⟨7, 11, app_name⟩ [("event", Value.str "processing_document")],
   log_trace_correlation.2 [("event", Value.str "processing_document")] rfl⟩

/-- The enrichment order the spec prescribes: level, logger name, ISO
timestamp, stack info, runtime-context fields, trace/span identifiers,
exception info, final serialization. -/
def specPipelineOrder : List Processor :=
  [Processor.add_log_level,
   Processor.add_logger_name,
   Processor.timeStamperIso,
   Processor.stackInfoRenderer,
   Processor.add_modal_context,
   Processor.add_datadog_context,
   Processor.format_exc_info,
   Processor.jsonRenderer]

/-- C4: the configured structlog pipeline runs its eight enrichment steps in
exactly the order the spec lists: level, logger name, ISO timestamp, stack
info, runtime context, trace/span identifiers, exception info, serializer. -/
theorem pipeline_order_matches_spec : configuredProcessors = specPipelineOrder := rfl

/-- C5: an exception injected in either child stage propagates to the caller
unchanged, and the flush still happens exactly once before it does. -/
theorem process_error_propagation (st : TestServiceState) (w s : String)
    (r1 r2 : ℚ) (e : Exc) (f2 : Option Exc) :
    ((TestService.process st w s r1 r2 (some e) f2).2 = Except.error e ∧
     countFlush (TestService.process st w s r1 r2 (some e) f2).1 = 1) ∧
    ((TestService.process st w s r1 r2 none (some e)).2 = Except.error e ∧
     countFlush (TestService.process st w s r1 r2 none (some e)).1 = 1) := by
  cases f2 <;> exact ⟨⟨rfl, rfl⟩, ⟨rfl, rfl⟩⟩

/-- C6 counterexample: with every environment variable absent, the `modal`
runtime-context object gives `is_remote` the value `"0"`, not `"unknown"`. -/
theorem modal_context_counterexample :
    lookupKey (add_modal_context (fun _ => none) []) "modal" =
      some (Value.obj
        [("is_remote", Value.str "0"),
         ("environment", Value.str "unknown"),
         ("region", Value.str "unknown"),
         ("task_id", Value.str "unknown"),
         ("image_id", Value.str "unknown")]) ∧
    ("0" : String) ≠ "unknown" :=
  ⟨rfl, by decide⟩

/-- C6 amended: every runtime fact is the environment variable's value passed
through as an opaque string; environment, region, task id and image id
default to `"unknown"` when absent, while the is-remote flag defaults
to `"0"`. -/
theorem modal_context_fields (env : Env) (d : Dict) :
    lookupKey (add_modal_context env d) "modal" =
      some (Value.obj
        [("is_remote", Value.str ((env "MODAL_IS_REMOTE").getD "0")),
         ("environment", Value.str ((env "MODAL_ENVIRONMENT").getD "unknown")),
         ("region", Value.str ((env "MODAL_REGION").getD "unknown")),
         ("task_id", Value.str ((env "MODAL_TASK_ID").getD "unknown")),
         ("image_id", Value.str ((env "MODAL_IMAGE_ID").getD "unknown"))]) :=
  lookupKey_setKey d "modal" _

/-- C7: when both draws are at or above their stage thresholds (0.05 and
0.10), neither stage is tagged slow and the total slept duration is the sum
of the baselines 0.2 + 0.3; when both draws are below their thresholds,
both stages are tagged slow. -/
theorem slow_stage_tagging (st : TestServiceState) (w s : String) (r1 r2 : ℚ) :
    (5/100 ≤ r1 → 10/100 ≤ r2 →
       boolTags (TestService.process st w s r1 r2 none none).1 =
         [("slow_render", false), ("slow_llm", false)] ∧
       totalSleep (TestService.process st w s r1 r2 none none).1 = 2/10 + 3/10) ∧
    (r1 < 5/100 → r2 < 10/100 →
       boolTags (TestService.process st w s r1 r2 none none).1 =
         [("slow_render", true), ("slow_llm", true)]) := by
  constructor
  · intro h1 h2
    have h1' : ¬ (r1 < 5/100) := not_lt.mpr h1
    have h2' : ¬ (r2 < 10/100) := not_lt.mpr h2
    constructor
    · simp [TestService.process, withSpan, seqT, renderBody, llmBody, boolTags, h1', h2']
    · simp [TestService.process, withSpan, seqT, renderBody, llmBody, totalSleep, h1', h2']
  · intro h1 h2
    simp [TestService.process, withSpan, seqT, renderBody, llmBody, boolTags, h1, h2]

/-- C7 witness: with draws 1 and 1 no stage is slow and the slept total is
0.5; with draws 0 and 0 both stages are slow. -/
theorem slow_stage_tagging_witness :
    (boolTags (TestService.process ⟨["mineru-vl", "dots-ocr"]⟩ "doc-1" "strategy-A"
        1 1 none none).1 = [("slow_render", false), ("slow_llm", false)] ∧
     totalSleep (TestService.process ⟨["mineru-vl", "dots-ocr"]⟩ "doc-1" "strategy-A"
        1 1 none none).1 = 2/10 + 3/10) ∧
    boolTags (TestService.process ⟨["mineru-vl", "dots-ocr"]⟩ "doc-1" "strategy-A"
        0 0 none none).1 = [("slow_render", true), ("slow_llm", true)] :=
  ⟨(slow_stage_tagging ⟨["mineru-vl", "dots-ocr"]⟩ "doc-1" "strategy-A" 1 1).1
     (by norm_num) (by norm_num),
   (slow_stage_tagging ⟨["mineru-vl", "dots-ocr"]⟩ "doc-1" "strategy-A" 0 0).2
     (by norm_num) (by norm_num)⟩

/-- C8: within one normal invocation the span events are exactly: root opens,
render child opens and closes, llm child opens and closes, root closes — so
each child lives strictly inside the root's duration, closes before the root
does, and the render stage precedes the llm stage. -/
theorem span_nesting_order (st : TestServiceState) (w s : String) (r1 r2 : ℚ) :
    spanEvents (TestService.process st w s r1 r2 none none).1 =
      [Event.spanOpen "document.process" app_name "serverless",
       Event.spanOpen "document.render_pages" app_name "template",
       Event.spanClose "document.render_pages",
       Event.spanOpen "document.llm_extract" app_name "llm",
       Event.spanClose "document.llm_extract",
       Event.spanClose "document.process"] := rfl

/-- C9: the value `process` returns on normal completion does not depend on
the random draws — any two runs with the same arguments return the same
record. -/
theorem result_independent_of_draws (st : TestServiceState) (w s : String)
    (r1 r2 r1' r2' : ℚ) :
    (TestService.process st w s r1 r2 none none).2 =
      (TestService.process st w s r1' r2' none none).2 := rfl

/-- C10: `process` never validates its strategy argument: every strategy
string (including ones outside the list `init` stores) completes with status
`"success"` and the same derived fields, and the whole behaviour — trace and
result — is independent of the stored strategies list. -/
theorem strategy_never_validated (st st' : TestServiceState) (w strat : String)
    (r1 r2 : ℚ) :
    (TestService.process st w strat r1 r2 none none).2 =
      Except.ok [("document_id", Value.str w), ("strategy", Value.str strat),
                 ("status", Value.str "success"), ("pages", Value.nat 10)] ∧
    TestService.process st w strat r1 r2 none none =
      TestService.process st' w strat r1 r2 none none ∧
    TestService.init.1.strategies = ["mineru-vl", "dots-ocr"] :=
  ⟨rfl, rfl, rfl⟩

end ApmRef
